import Mathlib

/-!
Shallow embedding of the 2D cavity-flow kernel of the numba tutorial
notebooks: `velocity_term` and `cavity_flow` from the CFD introduction
notebook, the exercise `pressure_poisson` (textually identical to the one in
the compile-module notebook), and the in-notebook `pressure_poisson` variant
of the CFD introduction notebook, which differs from the exercise one in its
boundary conditions and in resetting its counter `n` inside the loop body.

Conventions.  A float64 array of shape `(I, J)` is embedded as a total
function `ℕ → ℕ → ℚ` together with explicit shape parameters `I J : ℕ`;
in-place slice assignments become grid transformers composed in program
order.  Float arithmetic is modelled exactly over `ℚ`.  The one place where
IEEE special values matter is the relative residual
`sqrt(sum((p-pn)**2)/sum(pn**2))`, captured by `Residual`: a zero denominator
with zero numerator is IEEE `0.0/0.0 = nan`, and `nan > t` is `false`; a zero
denominator with positive numerator is `inf`, and `inf > t` is `true`;
otherwise the residual is the real square root of the rational `num/den`,
and `sqrt(q) > t` is decided exactly as `t < 0 ∨ t^2 < q`.
-/

/-- Dense 2D grid of rationals, indexed row-major as `g i j` like `g[i, j]`. -/
abbrev Grid : Type := ℕ → ℕ → ℚ

/-- The all-zero grid, `numpy.zeros((I, J))`. -/
def zeroGrid : Grid := fun _ _ => 0

/-- Single in-place cell assignment `g[i, j] = v`. -/
def writeCell (g : Grid) (i j : ℕ) (v : ℚ) : Grid :=
  fun i' j' => if i' = i ∧ j' = j then v else g i' j'

/-- Right-hand side of the relaxation assignment in the exercise
`pressure_poisson`: `0.25 * (pn[i+1,j] + pn[i-1,j] + pn[i,j+1] + pn[i,j-1])
- b[i,j]`. -/
def relaxCell (pn b : Grid) (i j : ℕ) : ℚ :=
  0.25 * (pn (i + 1) j + pn (i - 1) j + pn i (j + 1) + pn i (j - 1)) - b i j

/-- Inner loop `for j in range(1, J-1): p[i, j] = relaxCell pn b i j` of the
exercise `pressure_poisson`, unrolled as `m` sequential writes at columns
`1, …, m` of row `i`; the stencil reads only the saved copy `pn`. -/
def innerLoop (pn b : Grid) (i : ℕ) (p : Grid) : ℕ → Grid
  | 0 => p
  | m + 1 => writeCell (innerLoop pn b i p m) i (m + 1) (relaxCell pn b i (m + 1))

/-- Outer loop `for i in range(1, I-1)` of the exercise `pressure_poisson`:
`r` sequential row sweeps at rows `1, …, r`, each running `innerLoop` over
`J - 2` interior columns. -/
def rowLoop (pn b : Grid) (J : ℕ) (p : Grid) : ℕ → Grid
  | 0 => p
  | r + 1 => innerLoop pn b (r + 1) (rowLoop pn b J p r) (J - 2)

/-- The full interior double loop of the exercise `pressure_poisson`,
updating rows `1, …, I-2` and columns `1, …, J-2` in place in `p` while
reading the saved copy `pn` and the source `b`. -/
def interiorUpdate (I J : ℕ) (pn b p : Grid) : Grid :=
  rowLoop pn b J p (I - 2)

/-- Vectorised interior update of the CFD-notebook `pressure_poisson`:
`p[1:-1,1:-1] = .25*(pn[1:-1,2:] + pn[1:-1,:-2] + pn[2:,1:-1] + pn[:-2,1:-1])
- b[1:-1,1:-1]`, all reads from the copy `pn`. -/
def interiorVec (I J : ℕ) (pn b : Grid) : Grid :=
  fun i j =>
    if 1 ≤ i ∧ i ≤ I - 2 ∧ 1 ≤ j ∧ j ≤ J - 2 then
      0.25 * (pn i (j + 1) + pn i (j - 1) + pn (i + 1) j + pn (i - 1) j) - b i j
    else pn i j

/-- Boundary assignment `p[:, 0] = p[:, 1]`. -/
def setCol0 (g : Grid) : Grid :=
  fun i j => if j = 0 then g i 1 else g i j

/-- Boundary assignment `p[:, -1] = 0` (exercise variant). -/
def setColLastZero (J : ℕ) (g : Grid) : Grid :=
  fun i j => if j = J - 1 then 0 else g i j

/-- Boundary assignment `p[:, -1] = p[:, -2]` (CFD-notebook variant). -/
def setColLastMirror (J : ℕ) (g : Grid) : Grid :=
  fun i j => if j = J - 1 then g i (J - 2) else g i j

/-- Boundary assignment `p[0, :] = p[1, :]`. -/
def setRow0 (g : Grid) : Grid :=
  fun i j => if i = 0 then g 1 j else g i j

/-- Boundary assignment `p[-1, :] = p[-2, :]` (exercise variant). -/
def setRowLastMirror (I : ℕ) (g : Grid) : Grid :=
  fun i j => if i = I - 1 then g (I - 2) j else g i j

/-- Boundary assignment `p[-1, :] = 0` (CFD-notebook variant). -/
def setRowLastZero (I : ℕ) (g : Grid) : Grid :=
  fun i j => if i = I - 1 then 0 else g i j

/-- One relaxation sweep of the exercise `pressure_poisson` (also the
compile-module one): save `pn = p.copy()`, run the interior double loop, then
apply the boundary assignments in program order: `p[i,0] = p[i,1]` and
`p[i,-1] = 0` for every row, then `p[0,j] = p[1,j]` and `p[-1,j] = p[-2,j]`
for every column. -/
def sweepEx (I J : ℕ) (b p : Grid) : Grid :=
  setRowLastMirror I (setRow0 (setColLastZero J (setCol0 (interiorUpdate I J p b p))))

/-- One relaxation sweep of the CFD-notebook `pressure_poisson`: save
`pn = p.copy()`, vectorised interior update, then `p[:,0] = p[:,1]`,
`p[:,-1] = p[:,-2]`, `p[0,:] = p[1,:]`, `p[-1,:] = 0` in program order. -/
def sweepNb (I J : ℕ) (b p : Grid) : Grid :=
  setRowLastZero I (setRow0 (setColLastMirror J (setCol0 (interiorVec I J p b))))

/-- Sum of `f i j` over the whole `(I, J)` array, `numpy.sum`. -/
def gridSum (I J : ℕ) (f : ℕ → ℕ → ℚ) : ℚ :=
  ∑ i ∈ Finset.range I, ∑ j ∈ Finset.range J, f i j

/-- Exact model of the float64 value held by `iter_diff`.  `plain q` is an
ordinary float (used for the initialisation `l2_target + 1`); `sqrtOf q` is
the nonnegative real square root of the rational `q = num/den`; `nan` is
IEEE `0.0/0.0` and `inf` is `x/0.0` for `x > 0`. -/
inductive Residual : Type
  | plain (q : ℚ)
  | sqrtOf (q : ℚ)
  | nan
  | inf
deriving DecidableEq

/-- Exact decision of the float comparison `iter_diff > t`: `nan`
compares false, `inf` compares true, and `sqrt q > t` holds iff `t < 0` or
`t^2 < q`. -/
def Residual.gtTol : Residual → ℚ → Bool
  | .plain q, t => decide (t < q)
  | .sqrtOf q, t => if t < 0 then true else decide (t ^ 2 < q)
  | .nan, _ => false
  | .inf, _ => true

/-- The residual expression
`numpy.sqrt(numpy.sum((p - pn)**2)/numpy.sum(pn**2))` of both
`pressure_poisson` variants, performed with no epsilon guard: when the
denominator `sum(pn**2)` is zero the division is IEEE `num/0.0`. -/
def computeResidual (I J : ℕ) (p pn : Grid) : Residual :=
  let num := gridSum I J (fun i j => (p i j - pn i j) ^ 2)
  let den := gridSum I J (fun i j => pn i j ^ 2)
  if den = 0 then (if num = 0 then .nan else .inf) else .sqrtOf (num / den)

/-- Loop of the exercise `pressure_poisson`:
`while iter_diff > l2_target and n <= 500`, with `fuel = 501 - n` making the
conjunct `n <= 500` structural (`fuel = 0` exactly when `n = 501`).  Each
iteration sweeps, recomputes `iter_diff` when `n % 10 == 0`, and increments
`n`.  Returns the final grid together with the number of executed sweeps. -/
def ppLoopEx (I J : ℕ) (b : Grid) (t : ℚ) : ℕ → ℕ → Residual → Grid → Grid × ℕ
  | 0, n, _, p => (p, n)
  | fuel + 1, n, d, p =>
    if d.gtTol t then
      let p1 := sweepEx I J b p
      let d1 := if n % 10 = 0 then computeResidual I J p1 p else d
      ppLoopEx I J b t fuel (n + 1) d1 p1
    else (p, n)

/-- Exercise (and compile-module) `pressure_poisson(p, b, l2_target)`:
`iter_diff = l2_target + 1`, `n = 0`, loop while `iter_diff > l2_target and
n <= 500`, return `p`.  Shapes come in as the explicit `I J` (the source
reads `I, J = b.shape`). -/
def pressure_poisson (I J : ℕ) (p b : Grid) (t : ℚ) : Grid :=
  (ppLoopEx I J b t 501 0 (.plain (t + 1)) p).1

/-- Number of relaxation sweeps executed by `pressure_poisson` (the final
value of its counter `n`). -/
def pressureSweeps (I J : ℕ) (p b : Grid) (t : ℚ) : ℕ :=
  (ppLoopEx I J b t 501 0 (.plain (t + 1)) p).2

/-- Loop of the CFD-notebook `pressure_poisson`: `while iter_diff >
l2_target`, with the body literally setting `n = 0` before using it, so the
convergence check `n % 10 == 0` always fires and the bail-out `n == 500`
never does.  This loop has no structural bound, so it carries explicit fuel
and returns `none` when the fuel is exhausted with the guard still true;
the counter `k` (instrumentation only) counts executed sweeps. -/
def ppLoopNb (I J : ℕ) (b : Grid) (t : ℚ) : ℕ → ℕ → Residual → Grid → Option (Grid × ℕ)
  | 0, _, _, _ => none
  | fuel + 1, k, d, p =>
    if d.gtTol t then
      let n := 0
      let p1 := sweepNb I J b p
      let d1 := if n % 10 = 0 then computeResidual I J p1 p else d
      if n = 500 then some (p1, k + 1)
      else ppLoopNb I J b t fuel (k + 1) d1 p1
    else some (p, k)

/-- CFD-notebook `pressure_poisson(p, b, l2_target)`: `iter_diff = l2_target
+ 1`, loop as in `ppLoopNb`, return `p` (paired with the executed sweep
count; `none` when `fuel` sweeps did not reach an exit). -/
def pressure_poisson_nb (I J : ℕ) (p b : Grid) (t : ℚ) (fuel : ℕ) : Option (Grid × ℕ) :=
  ppLoopNb I J b t fuel 0 (.plain (t + 1)) p

/-- Source-term builder `velocity_term(b, rho, dt, u, v, dx)` of the CFD
notebook: writes the centred-difference source into the interior
`b[1:-1, 1:-1]` and returns `b`; the boundary ring keeps its old values. -/
def velocity_term (I J : ℕ) (b : Grid) (rho dt : ℚ) (u v : Grid) (dx : ℚ) : Grid :=
  fun i j =>
    if 1 ≤ i ∧ i ≤ I - 2 ∧ 1 ≤ j ∧ j ≤ J - 2 then
      rho * dx / 16 *
        (2 / dt * (u i (j + 1) - u i (j - 1) + v (i + 1) j - v (i - 1) j) -
          2 / dx * (u (i + 1) j - u (i - 1) j) * (v i (j + 1) - v i (j - 1)) -
          (u i (j + 1) - u i (j - 1)) ^ 2 / dx -
          (v (i + 1) j - v (i - 1) j) ^ 2 / dx)
    else b i j

/-- Interior `u`-momentum update of `cavity_flow`: at interior cells,
`un[i,j] - dt/dx * (un[i,j]*(un[i,j]-un[i,j-1]) + vn[i,j]*(un[i,j]-un[i-1,j])
+ 1/(2 rho)*(p[i,j+1]-p[i,j-1])) + nu*dt/dx^2*(un[i,j+1]+un[i,j-1]+un[i+1,j]
+un[i-1,j]-4*un[i,j])`; elsewhere `u` keeps its previous value `un`. -/
def uUpdate (I J : ℕ) (un vn p : Grid) (rho nu dt dx : ℚ) : Grid :=
  fun i j =>
    if 1 ≤ i ∧ i ≤ I - 2 ∧ 1 ≤ j ∧ j ≤ J - 2 then
      un i j - dt / dx *
          (un i j * (un i j - un i (j - 1)) + vn i j * (un i j - un (i - 1) j) +
            1 / (2 * rho) * (p i (j + 1) - p i (j - 1))) +
        nu * dt / dx ^ 2 *
          (un i (j + 1) + un i (j - 1) + un (i + 1) j + un (i - 1) j - 4 * un i j)
    else un i j

/-- Interior `v`-momentum update of `cavity_flow`: at interior cells,
`vn[i,j] - dt/dx * (un[i,j]*(vn[i,j]-vn[i,j-1]) + vn[i,j]*(vn[i,j]-vn[i-1,j])
+ 1/(2 rho)*(p[i+1,j]-p[i-1,j])) + nu*dt/dx^2*(vn[i,j+1]+vn[i,j-1]+vn[i+1,j]
+vn[i-1,j]-4*vn[i,j])`: the x-derivative advection term is multiplied by the
previous `u` field and the y-derivative one by the previous `v` field. -/
def vUpdate (I J : ℕ) (un vn p : Grid) (rho nu dt dx : ℚ) : Grid :=
  fun i j =>
    if 1 ≤ i ∧ i ≤ I - 2 ∧ 1 ≤ j ∧ j ≤ J - 2 then
      vn i j - dt / dx *
          (un i j * (vn i j - vn i (j - 1)) + vn i j * (vn i j - vn (i - 1) j) +
            1 / (2 * rho) * (p (i + 1) j - p (i - 1) j)) +
        nu * dt / dx ^ 2 *
          (vn i (j + 1) + vn i (j - 1) + vn (i + 1) j + vn (i - 1) j - 4 * vn i j)
    else vn i j

/-- Modelled from the spec: the `v`-momentum update as the specification
describes it, with the previous `u` field as the advecting velocity of BOTH
the x-derivative and the y-derivative advection terms; written only to be
compared against `vUpdate`, the embedding of the actual code. -/
def vUpdateSpecBothU (I J : ℕ) (un vn p : Grid) (rho nu dt dx : ℚ) : Grid :=
  fun i j =>
    if 1 ≤ i ∧ i ≤ I - 2 ∧ 1 ≤ j ∧ j ≤ J - 2 then
      vn i j - dt / dx *
          (un i j * (vn i j - vn i (j - 1)) + un i j * (vn i j - vn (i - 1) j) +
            1 / (2 * rho) * (p (i + 1) j - p (i - 1) j)) +
        nu * dt / dx ^ 2 *
          (vn i (j + 1) + vn i (j - 1) + vn (i + 1) j + vn (i - 1) j - 4 * vn i j)
    else vn i j

/-- Velocity boundary block of `cavity_flow` for `u`, in program order:
`u[:,0] = 0; u[:,-1] = 0; u[0,:] = 0; u[-1,:] = 1`; the lid row assignment
comes last, so the lid corners end at `1`. -/
def uBC (I J : ℕ) (g : Grid) : Grid :=
  fun i j =>
    if i = I - 1 then 1
    else if i = 0 then 0
    else if j = 0 ∨ j = J - 1 then 0
    else g i j

/-- Velocity boundary block of `cavity_flow` for `v`, in program order:
`v[:,0] = 0; v[:,-1] = 0; v[0,:] = 0; v[-1,:] = 0`. -/
def vBC (I J : ℕ) (g : Grid) : Grid :=
  fun i j =>
    if i = 0 ∨ i = I - 1 then 0
    else if j = 0 ∨ j = J - 1 then 0
    else g i j

/-- Timestep loop of `cavity_flow`: each step copies `un = u`, `vn = v`,
recomputes `b = velocity_term(b, …)` in the threaded source array, solves
the pressure with the CFD-notebook `pressure_poisson` (fresh `fuel` per
solve; `none` propagates a non-terminating solve), applies the interior
momentum updates to the fresh pressure, and forces the velocity boundary
blocks. -/
def cavityLoop (I J : ℕ) (dt dx rho nu rtol : ℚ) (fuel : ℕ) :
    ℕ → Grid → Grid → Grid → Grid → Option (Grid × Grid × Grid)
  | 0, u, v, p, _ => some (u, v, p)
  | nt + 1, u, v, p, b =>
    let un := u
    let vn := v
    let b1 := velocity_term I J b rho dt u v dx
    match pressure_poisson_nb I J p b1 rtol fuel with
    | none => none
    | some (p1, _) =>
      let u1 := uBC I J (uUpdate I J un vn p1 rho nu dt dx)
      let v1 := vBC I J (vUpdate I J un vn p1 rho nu dt dx)
      cavityLoop I J dt dx rho nu rtol fuel nt u1 v1 p1 b1

/-- CFD-notebook `cavity_flow(nt, u, v, dt, dx, p, rho, nu, rtol)`:
allocates `b = zeros((ny, nx))` and runs `nt` timesteps. -/
def cavity_flow (I J nt : ℕ) (u v : Grid) (dt dx : ℚ) (p : Grid)
    (rho nu rtol : ℚ) (fuel : ℕ) : Option (Grid × Grid × Grid) :=
  cavityLoop I J dt dx rho nu rtol fuel nt u v p zeroGrid

/-- Family of 3×3 states `[[x,x,x],[x,x,x],[0,0,0]]` (zero outside the
shape): one CFD-notebook sweep maps any 3×3 state into this family. -/
def Gx (x : ℚ) : Grid := fun i j => if i ≤ 1 ∧ j ≤ 2 then x else 0

/-- Source grid with a single `-1` in the only interior cell of a 3×3
shape. -/
def bUnit : Grid := fun i j => if i = 1 ∧ j = 1 then -1 else 0

/-- Pressure grid with a single `12` at cell `(1, 2)` of a 3×3 shape. -/
def pTwelve : Grid := fun i j => if i = 1 ∧ j = 2 then 12 else 0

/-- Pressure grid `[[1,1,0],[1,1,0],[1,1,0]]`: a fixed point of the
exercise sweep for the source `bFix`. -/
def pFix : Grid := fun i j => if i ≤ 2 ∧ j ≤ 1 then 1 else 0

/-- Source grid with `-1/4` in the only interior cell of a 3×3 shape,
chosen so that `pFix` is a fixed point of the exercise sweep. -/
def bFix : Grid := fun i j => if i = 1 ∧ j = 1 then -(1/4) else 0

/-- Velocity grid with a single `2` at the interior cell `(1, 1)` of a 3×3
shape. -/
def vSpike : Grid := fun i j => if i = 1 ∧ j = 1 then 2 else 0

/-- Pressure grid `[[1,1,1],[1,1,1],[0,0,0]]` extended by ones above row 2:
rows `0` and `1` hold `1`, every other row holds `0`. -/
def pTop : Grid := fun i _ => if i ≤ 1 then (1 : ℚ) else 0

/-- Affine test grid `g i j = 4 i + j`, used to instantiate universally
quantified theorems at a non-degenerate input. -/
def gLin : Grid := fun i j => (i : ℚ) * 4 + (j : ℚ)

/-- Residual examined by the exercise `pressure_poisson` at its sweep `m`:
the grid after `m + 1` sweeps against the grid after `m` sweeps. -/
def residAt (I J : ℕ) (b p : Grid) (m : ℕ) : Residual :=
  computeResidual I J ((sweepEx I J b)^[m + 1] p) ((sweepEx I J b)^[m] p)

/-- Velocity `u` after one timestep of `cavity_flow` from the all-zero
3×3 state with `rho = dt = dx = 1` and `nu = 0`. -/
def uZstep : Grid := uBC 3 3 (uUpdate 3 3 zeroGrid zeroGrid zeroGrid 1 0 1 1)

/-- Velocity `v` after one timestep of `cavity_flow` from the all-zero
3×3 state with `rho = dt = dx = 1` and `nu = 0`. -/
def vZstep : Grid := vBC 3 3 (vUpdate 3 3 zeroGrid zeroGrid zeroGrid 1 0 1 1)

/-- Value of the sequential inner column loop at an arbitrary cell: columns
`1, …, m` of row `i` hold the stencil value read from the copy `pn`; every
other cell still holds its value in the accumulator `p`.  This is the
no-interference fact for the in-place writes of the exercise interior
loop. -/
theorem innerLoop_apply (pn b : Grid) (i : ℕ) (p : Grid) (m : ℕ) (i' j' : ℕ) :
    innerLoop pn b i p m i' j' =
      if i' = i ∧ 1 ≤ j' ∧ j' ≤ m then relaxCell pn b i j' else p i' j' := by
  induction m with
  | zero =>
    simp only [innerLoop]
    rw [if_neg (by omega)]
  | succ m ih =>
    simp only [innerLoop, writeCell, ih]
    split_ifs with h1 h2 h3 <;> first
      | rfl
      | (exfalso; omega)
      | (rw [h1.2])

/-- Value of the sequential outer row loop at an arbitrary cell. -/
theorem rowLoop_apply (pn b : Grid) (J : ℕ) (p : Grid) (r : ℕ) (i' j' : ℕ) :
    rowLoop pn b J p r i' j' =
      if 1 ≤ i' ∧ i' ≤ r ∧ 1 ≤ j' ∧ j' ≤ J - 2 then relaxCell pn b i' j' else p i' j' := by
  induction r with
  | zero =>
    simp only [rowLoop]
    rw [if_neg (by omega)]
  | succ r ih =>
    simp only [rowLoop, innerLoop_apply, ih]
    split_ifs with h1 h2 h3 <;> first
      | rfl
      | (exfalso; omega)
      | (rw [h1.1])

/-- Value of the full interior double loop at an arbitrary cell. -/
theorem interiorUpdate_apply (I J : ℕ) (pn b p : Grid) (i j : ℕ) :
    interiorUpdate I J pn b p i j =
      if 1 ≤ i ∧ i ≤ I - 2 ∧ 1 ≤ j ∧ j ≤ J - 2 then relaxCell pn b i j else p i j := by
  simp only [interiorUpdate, rowLoop_apply]

/-- After one exercise sweep, column `0` equals column `1` at every row. -/
theorem sweepEx_col0 (I J : ℕ) (b p : Grid) (i : ℕ) (hJ : 3 ≤ J) :
    sweepEx I J b p i 0 = sweepEx I J b p i 1 := by
  simp only [sweepEx, setRowLastMirror, setRow0, setColLastZero, setCol0]
  split_ifs <;> first | rfl | (exfalso; omega)

/-- After one exercise sweep, the last column is identically zero. -/
theorem sweepEx_lastcol (I J : ℕ) (b p : Grid) (i : ℕ) :
    sweepEx I J b p i (J - 1) = 0 := by
  simp only [sweepEx, setRowLastMirror, setRow0, setColLastZero, setCol0]
  split_ifs <;> rfl

/-- After one exercise sweep, the last row equals the second-to-last row. -/
theorem sweepEx_lastrow (I J : ℕ) (b p : Grid) (j : ℕ) :
    sweepEx I J b p (I - 1) j = sweepEx I J b p (I - 2) j := by
  simp only [sweepEx, setRowLastMirror, setRow0, setColLastZero, setCol0]
  split_ifs <;> rfl

/-- After one CFD-notebook sweep, column `0` equals column `1`. -/
theorem sweepNb_col0 (I J : ℕ) (b p : Grid) (i : ℕ) (hJ : 3 ≤ J) :
    sweepNb I J b p i 0 = sweepNb I J b p i 1 := by
  simp only [sweepNb, setRowLastZero, setRow0, setColLastMirror, setCol0]
  split_ifs <;> first | rfl | (exfalso; omega)

/-- After one CFD-notebook sweep, the last row is identically zero. -/
theorem sweepNb_lastrow (I J : ℕ) (b p : Grid) (j : ℕ) :
    sweepNb I J b p (I - 1) j = 0 := by
  simp [sweepNb, setRowLastZero]

/-- One CFD-notebook sweep collapses any 3×3 state that vanishes outside
the shape into the family `Gx`, with the new interior value read off the
old state. -/
theorem sweepNb_collapse3 (b p : Grid) (hout : ∀ i j, 3 ≤ i ∨ 3 ≤ j → p i j = 0) :
    sweepNb 3 3 b p = Gx (0.25 * (p 1 2 + p 1 0 + p 2 1 + p 0 1) - b 1 1) := by
  funext i j
  simp only [sweepNb, setRowLastZero, setRow0, setColLastMirror, setCol0, interiorVec, Gx]
  norm_num
  rcases i with _ | _ | _ | i <;> rcases j with _ | _ | _ | j <;> simp_all

/-- The exercise loop is a bounded iteration of the sweep: from any entry
state it executes some `k ≤ fuel` further sweeps and returns the `k`-fold
sweep image together with the counter advanced by `k`. -/
theorem ppLoopEx_spec (I J : ℕ) (b : Grid) (t : ℚ) :
    ∀ fuel n d p, ∃ k, k ≤ fuel ∧
      ppLoopEx I J b t fuel n d p = ((sweepEx I J b)^[k] p, n + k) := by
  intro fuel
  induction fuel with
  | zero => exact fun n d p => ⟨0, le_rfl, by simp [ppLoopEx]⟩
  | succ fuel ih =>
    intro n d p
    by_cases h : d.gtTol t = true
    · obtain ⟨k, hk, he⟩ :=
        ih (n + 1) (if n % 10 = 0 then computeResidual I J (sweepEx I J b p) p else d)
          (sweepEx I J b p)
      refine ⟨k + 1, by omega, ?_⟩
      simp only [ppLoopEx, h, if_true]
      rw [he, Function.iterate_succ_apply]
      exact congrArg _ (by omega)
    · exact ⟨0, by omega, by simp [ppLoopEx, h]⟩

/-- Identification of the all-zero grid with the degenerate member of the
`Gx` family. -/
theorem zeroGrid_eq_Gx0 : zeroGrid = Gx 0 := by
  funext i j
  simp [zeroGrid, Gx]

/-- Sum of squares over the 3×3 shape of a `Gx` state. -/
theorem gridSum_Gx_sq (x : ℚ) : gridSum 3 3 (fun i j => Gx x i j ^ 2) = 6 * x ^ 2 := by
  simp [gridSum, Gx, Finset.sum_range_succ]
  ring

/-- Sum of squared differences over the 3×3 shape of two `Gx` states. -/
theorem gridSum_Gx_diff (x y : ℚ) :
    gridSum 3 3 (fun i j => (Gx x i j - Gx y i j) ^ 2) = 6 * (x - y) ^ 2 := by
  simp [gridSum, Gx, Finset.sum_range_succ]
  ring

/-- One-step unfolding of the exercise loop at a successor fuel value. -/
theorem ppLoopEx_succ (I J : ℕ) (b : Grid) (t : ℚ) (fuel n : ℕ) (d : Residual) (p : Grid) :
    ppLoopEx I J b t (fuel + 1) n d p =
      if d.gtTol t then
        ppLoopEx I J b t fuel (n + 1)
          (if n % 10 = 0 then computeResidual I J (sweepEx I J b p) p else d)
          (sweepEx I J b p)
      else (p, n) := rfl

/-- Shared run shape of the exercise `pressure_poisson`: the returned grid
is the `pressureSweeps`-fold sweep image of the input and the sweep count
lies in `[1, 501]` (the initial `iter_diff = l2_target + 1` forces the
first iteration; the cap bounds the rest). -/
theorem pressure_poisson_iterate_count (I J : ℕ) (p b : Grid) (t : ℚ) :
    pressure_poisson I J p b t = (sweepEx I J b)^[pressureSweeps I J p b t] p ∧
      1 ≤ pressureSweeps I J p b t ∧ pressureSweeps I J p b t ≤ 501 := by
  have hg : (Residual.plain (t + 1)).gtTol t = true := by
    simp only [Residual.gtTol, decide_eq_true_eq]
    exact lt_add_one t
  have h1 : ppLoopEx I J b t 501 0 (.plain (t + 1)) p =
      ppLoopEx I J b t 500 1 (computeResidual I J (sweepEx I J b p) p) (sweepEx I J b p) := by
    show ppLoopEx I J b t (500 + 1) 0 (.plain (t + 1)) p = _
    rw [ppLoopEx_succ]
    simp [hg]
  obtain ⟨k, hk, he⟩ := ppLoopEx_spec I J b t 500 1
    (computeResidual I J (sweepEx I J b p) p) (sweepEx I J b p)
  refine ⟨?_, ?_, ?_⟩
  · show (ppLoopEx I J b t 501 0 (.plain (t + 1)) p).1 =
      (sweepEx I J b)^[(ppLoopEx I J b t 501 0 (.plain (t + 1)) p).2] p
    rw [h1, he]
    show (sweepEx I J b)^[k] (sweepEx I J b p) = (sweepEx I J b)^[1 + k] p
    rw [add_comm 1 k, Function.iterate_succ_apply]
  · show 1 ≤ (ppLoopEx I J b t 501 0 (.plain (t + 1)) p).2
    rw [h1, he]
    omega
  · show (ppLoopEx I J b t 501 0 (.plain (t + 1)) p).2 ≤ 501
    rw [h1, he]
    omega

/-- C10: on every input, the exercise `pressure_poisson` executes at least
one full relaxation sweep (interior re-relaxed from its own copy and the
boundary rows and columns re-forced) before any convergence check can stop
it, because `iter_diff` is initialised to `l2_target + 1`, which is strictly
above the tolerance; the returned grid is exactly the `pressureSweeps`-fold
sweep image of the input, with at least `1` and at most `501` sweeps. -/
theorem pressure_poisson_always_sweeps (I J : ℕ) (p b : Grid) (t : ℚ) :
    pressure_poisson I J p b t = (sweepEx I J b)^[pressureSweeps I J p b t] p ∧
      1 ≤ pressureSweeps I J p b t ∧ pressureSweeps I J p b t ≤ 501 :=
  pressure_poisson_iterate_count I J p b t

/-- C2: in a relaxation sweep of either `pressure_poisson` variant, every
interior cell of the result equals
`0.25*(pn[i,j+1] + pn[i,j-1] + pn[i+1,j] + pn[i-1,j]) - b[i,j]` where `pn`
is the state saved before the sweep: the in-place interior writes read only
the saved copy and the source `b`, never the partially updated grid, and
the subsequent boundary assignments never touch an interior cell. -/
theorem sweep_reads_only_saved_copy (I J : ℕ) (b p : Grid) (i j : ℕ)
    (hi1 : 1 ≤ i) (hi2 : i ≤ I - 2) (hj1 : 1 ≤ j) (hj2 : j ≤ J - 2) :
    sweepEx I J b p i j =
        0.25 * (p i (j + 1) + p i (j - 1) + p (i + 1) j + p (i - 1) j) - b i j ∧
      sweepNb I J b p i j =
        0.25 * (p i (j + 1) + p i (j - 1) + p (i + 1) j + p (i - 1) j) - b i j := by
  constructor
  · simp only [sweepEx, setRowLastMirror, setRow0, setColLastZero, setCol0]
    rw [if_neg (by omega), if_neg (by omega), if_neg (by omega), if_neg (by omega),
      interiorUpdate_apply, if_pos ⟨hi1, hi2, hj1, hj2⟩]
    simp only [relaxCell]
    ring
  · simp only [sweepNb, setRowLastZero, setRow0, setColLastMirror, setCol0, interiorVec]
    rw [if_neg (by omega), if_neg (by omega), if_neg (by omega), if_neg (by omega),
      if_pos ⟨hi1, hi2, hj1, hj2⟩]

/-- Witness for C2 at the concrete 4×4 input `p = gLin`, `b = bUnit`,
interior cell `(2, 1)`. -/
theorem sweep_reads_only_saved_copy_witness :
    sweepEx 4 4 bUnit gLin 2 1 =
        0.25 * (gLin 2 2 + gLin 2 0 + gLin 3 1 + gLin 1 1) - bUnit 2 1 ∧
      sweepNb 4 4 bUnit gLin 2 1 =
        0.25 * (gLin 2 2 + gLin 2 0 + gLin 3 1 + gLin 1 1) - bUnit 2 1 :=
  sweep_reads_only_saved_copy 4 4 bUnit gLin 2 1 (by decide) (by decide) (by decide) (by decide)

/-- C9: `velocity_term` writes only the interior of `b`: every cell of the
outermost ring (row `0`, row `I-1`, column `0`, column `J-1`) holds exactly
the value `b` held before the call.  (The embedding is functional, so the
velocity arguments `u`, `v` are untouched by construction, matching the
source, which assigns only to `b`.) -/
theorem velocity_term_frame (I J : ℕ) (b : Grid) (rho dt : ℚ) (u v : Grid) (dx : ℚ)
    (i j : ℕ) (h : i = 0 ∨ i = I - 1 ∨ j = 0 ∨ j = J - 1) :
    velocity_term I J b rho dt u v dx i j = b i j := by
  simp only [velocity_term]
  rw [if_neg (by omega)]

/-- Witness for C9 at a concrete 4×4 input, on the last-row boundary
cell `(3, 2)`. -/
theorem velocity_term_frame_witness :
    velocity_term 4 4 gLin 2 (1/2) pTwelve vSpike (1/4) 3 2 = gLin 3 2 :=
  velocity_term_frame 4 4 gLin 2 (1/2) pTwelve vSpike (1/4) 3 2 (by decide)

/-- C5: `velocity_term` sets every interior cell of `b` to the centred
finite-difference source `rho*dx/16 * (2/dt*(du+dv) - 2/dx*du'*dv' -
du^2/dx - dv^2/dx)` over the 4-neighbourhood, and for all-zero `u` and `v`
every interior cell of the result is `0`.  The positivity hypotheses on
`dt`, `dx` record the parameter validity the spec assumes (in float
arithmetic `2/dt` with `dt = 0` would not give a zero product). -/
theorem velocity_term_interior (I J : ℕ) (b : Grid) (rho dt : ℚ) (u v : Grid) (dx : ℚ)
    (i j : ℕ) (hi1 : 1 ≤ i) (hi2 : i ≤ I - 2) (hj1 : 1 ≤ j) (hj2 : j ≤ J - 2)
    (hdt : 0 < dt) (hdx : 0 < dx) :
    velocity_term I J b rho dt u v dx i j =
        rho * dx / 16 *
          (2 / dt * (u i (j + 1) - u i (j - 1) + v (i + 1) j - v (i - 1) j) -
            2 / dx * (u (i + 1) j - u (i - 1) j) * (v i (j + 1) - v i (j - 1)) -
            (u i (j + 1) - u i (j - 1)) ^ 2 / dx -
            (v (i + 1) j - v (i - 1) j) ^ 2 / dx) ∧
      velocity_term I J b rho dt zeroGrid zeroGrid dx i j = 0 := by
  constructor
  · simp only [velocity_term]
    rw [if_pos ⟨hi1, hi2, hj1, hj2⟩]
  · simp only [velocity_term, zeroGrid]
    rw [if_pos ⟨hi1, hi2, hj1, hj2⟩]
    ring

/-- Witness for C5 at a concrete 4×4 input, interior cell `(1, 2)`,
`rho = 2`, `dt = 1/2`, `dx = 1/4`. -/
theorem velocity_term_interior_witness :
    velocity_term 4 4 gLin 2 (1/2) pTwelve vSpike (1/4) 1 2 =
        2 * (1/4) / 16 *
          (2 / (1/2) * (pTwelve 1 3 - pTwelve 1 1 + vSpike 2 2 - vSpike 0 2) -
            2 / (1/4) * (pTwelve 2 2 - pTwelve 0 2) * (vSpike 1 3 - vSpike 1 1) -
            (pTwelve 1 3 - pTwelve 1 1) ^ 2 / (1/4) -
            (vSpike 2 2 - vSpike 0 2) ^ 2 / (1/4)) ∧
      velocity_term 4 4 gLin 2 (1/2) zeroGrid zeroGrid (1/4) 1 2 = 0 :=
  velocity_term_interior 4 4 gLin 2 (1/2) pTwelve vSpike (1/4) 1 2
    (by decide) (by decide) (by decide) (by decide) (by norm_num) (by norm_num)

/-- One exercise sweep of the all-zero 3×3 state is again all-zero. -/
theorem sweepEx_zero : sweepEx 3 3 zeroGrid zeroGrid = zeroGrid := by
  funext i j
  simp only [sweepEx, setRowLastMirror, setRow0, setColLastZero, setCol0,
    interiorUpdate_apply, relaxCell, zeroGrid]
  split_ifs <;> norm_num

/-- The residual of the all-zero state against itself is IEEE `0.0/0.0`. -/
theorem computeResidual_zero : computeResidual 3 3 zeroGrid zeroGrid = .nan := by
  simp [computeResidual, gridSum, zeroGrid]

/-- Guard evaluation for the initial `iter_diff = l2_target + 1`. -/
theorem gtTol_plain_succ (t : ℚ) : (Residual.plain (t + 1)).gtTol t = true := by
  simp only [Residual.gtTol, decide_eq_true_eq]
  exact lt_add_one t

/-- C8: on the valid all-zero 3×3 input (`p = 0`, `b = 0`) the convergence
check of `pressure_poisson` runs with denominator `sum(pn**2)` exactly zero:
the unguarded division `sum((p-pn)**2)/sum(pn**2)` is IEEE `0.0/0.0` (the
`Residual.nan` branch of `computeResidual`, which has no epsilon guard and
no converged-policy branch), and since `nan > l2_target` is false the loop
then stops after exactly one sweep. -/
theorem residual_denominator_zero_unguarded :
    gridSum 3 3 (fun i j => zeroGrid i j ^ 2) = 0 ∧
      computeResidual 3 3 (sweepEx 3 3 zeroGrid zeroGrid) zeroGrid = .nan ∧
      pressureSweeps 3 3 zeroGrid zeroGrid (1/10000) = 1 := by
  refine ⟨by simp [gridSum, zeroGrid], by rw [sweepEx_zero]; exact computeResidual_zero, ?_⟩
  show (ppLoopEx 3 3 zeroGrid (1/10000) (500 + 1) 0 (.plain (1/10000 + 1)) zeroGrid).2 = 1
  rw [ppLoopEx_succ]
  rw [if_pos (by rw [gtTol_plain_succ])]
  norm_num [sweepEx_zero, computeResidual_zero]
  show (ppLoopEx 3 3 zeroGrid (1/10000) (499 + 1) 1 .nan zeroGrid).2 = 1
  rw [ppLoopEx_succ]
  rw [if_neg (by simp [Residual.gtTol])]

/-- The state `pFix` is a fixed point of the exercise sweep for source
`bFix`. -/
theorem sweepEx_pFix : sweepEx 3 3 bFix pFix = pFix := by
  funext i j
  simp only [sweepEx, setRowLastMirror, setRow0, setColLastZero, setCol0,
    interiorUpdate_apply, relaxCell, bFix, pFix]
  norm_num
  rcases i with _ | _ | _ | i <;> rcases j with _ | _ | _ | j <;> simp_all <;> norm_num

/-- Residual of the fixed point against itself: an honest `sqrt 0`. -/
theorem computeResidual_pFix : computeResidual 3 3 pFix pFix = .sqrtOf 0 := by
  have hnum : gridSum 3 3 (fun i j => (pFix i j - pFix i j) ^ 2) = 0 := by
    simp [gridSum]
  have hden : gridSum 3 3 (fun i j => pFix i j ^ 2) = 6 := by
    simp only [gridSum, pFix, Finset.sum_range_succ, Finset.sum_range_zero]
    norm_num
  simp only [computeResidual, hnum, hden]
  norm_num

/-- Running the exercise `pressure_poisson` on the fixed-point input stops
right after the first sweep and returns the fixed point unchanged. -/
theorem pressure_poisson_pFix : pressure_poisson 3 3 pFix bFix (1/10000) = pFix := by
  show (ppLoopEx 3 3 bFix (1/10000) (500 + 1) 0 (.plain (1/10000 + 1)) pFix).1 = pFix
  rw [ppLoopEx_succ]
  rw [if_pos (by rw [gtTol_plain_succ])]
  norm_num [sweepEx_pFix, computeResidual_pFix]
  show (ppLoopEx 3 3 bFix (1/10000) (499 + 1) 1 (.sqrtOf 0) pFix).1 = pFix
  rw [ppLoopEx_succ]
  rw [if_neg (by norm_num [Residual.gtTol])]

/-- Counterexample to C4 as stated: after `solve_pressure` returns on the
concrete input `p = pFix`, `b = bFix`, `l2_target = 1/10000`, the last row
of the result is NOT identically zero: the cell `(2, 0)` holds `1`.  (In
the exercise and compile-module variant the zero-clamped edge is the last
COLUMN; the last row instead mirrors the second-to-last row.) -/
theorem pressure_poisson_lastrow_not_zero :
    pressure_poisson 3 3 pFix bFix (1/10000) 2 0 ≠ 0 := by
  rw [pressure_poisson_pFix]
  simp [pFix]

/-- One-step unfolding of the CFD-notebook loop at a successor fuel
value; the body's `n` is literally `0`. -/
theorem ppLoopNb_succ (I J : ℕ) (b : Grid) (t : ℚ) (fuel k : ℕ) (d : Residual) (p : Grid) :
    ppLoopNb I J b t (fuel + 1) k d p =
      if d.gtTol t then
        if (0 : ℕ) = 500 then some (sweepNb I J b p, k + 1)
        else
          ppLoopNb I J b t fuel (k + 1)
            (if (0 : ℕ) % 10 = 0 then computeResidual I J (sweepNb I J b p) p else d)
            (sweepNb I J b p)
      else some (p, k) := rfl

/-- Any grid returned by the CFD-notebook loop is either the entry grid or
the image of a sweep. -/
theorem ppLoopNb_some (I J : ℕ) (b : Grid) (t : ℚ) :
    ∀ fuel k d p q m, ppLoopNb I J b t fuel k d p = some (q, m) →
      q = p ∨ ∃ p', q = sweepNb I J b p' := by
  intro fuel
  induction fuel with
  | zero => intro k d p q m h; simp [ppLoopNb] at h
  | succ fuel ih =>
    intro k d p q m h
    rw [ppLoopNb_succ] at h
    by_cases hg : d.gtTol t = true
    · rw [if_pos hg, if_neg (by omega)] at h
      rcases ih _ _ _ _ _ h with h1 | ⟨p', hp'⟩
      · exact Or.inr ⟨p, h1⟩
      · exact Or.inr ⟨p', hp'⟩
    · rw [if_neg hg] at h
      simp at h
      exact Or.inl h.1.symm

/-- C4 (amended): after `pressure_poisson` returns, column `0` equals
column `1` exactly, in every variant; the zero-clamped edge is the last
COLUMN in the exercise and compile-module variant, whose last row instead
mirrors the second-to-last row, while in the CFD-notebook variant the
zero-clamped edge is the last row (as the claim stated). -/
theorem pressure_poisson_boundary_amended (I J : ℕ) (p b : Grid) (t : ℚ)
    (hI : 3 ≤ I) (hJ : 3 ≤ J) :
    (∀ i, i < I →
        pressure_poisson I J p b t i 0 = pressure_poisson I J p b t i 1 ∧
          pressure_poisson I J p b t i (J - 1) = 0) ∧
      (∀ j, j < J →
        pressure_poisson I J p b t (I - 1) j = pressure_poisson I J p b t (I - 2) j) ∧
      (∀ fuel q m, pressure_poisson_nb I J p b t fuel = some (q, m) →
        (∀ i, i < I → q i 0 = q i 1) ∧ (∀ j, j < J → q (I - 1) j = 0)) := by
  obtain ⟨hiter, hk1, hk2⟩ := pressure_poisson_iterate_count I J p b t
  have hform : pressure_poisson I J p b t =
      sweepEx I J b ((sweepEx I J b)^[pressureSweeps I J p b t - 1] p) := by
    rw [hiter]
    rcases Nat.exists_eq_add_of_le hk1 with ⟨k', hk'⟩
    rw [hk']
    simp only [Nat.add_sub_cancel_left]
    rw [add_comm 1 k', Function.iterate_succ_apply']
  refine ⟨?_, ?_, ?_⟩
  · intro i _
    rw [hform]
    exact ⟨sweepEx_col0 I J b _ i hJ, sweepEx_lastcol I J b _ i⟩
  · intro j _
    rw [hform]
    exact sweepEx_lastrow I J b _ j
  · intro fuel q m heq
    cases fuel with
    | zero => simp [pressure_poisson_nb, ppLoopNb] at heq
    | succ fuel =>
      unfold pressure_poisson_nb at heq
      rw [ppLoopNb_succ, if_pos (gtTol_plain_succ t), if_neg (by omega)] at heq
      have h2 := ppLoopNb_some I J b t fuel 1 _ _ _ _ heq
      have h3 : ∃ p', q = sweepNb I J b p' := by
        rcases h2 with h | h
        · exact ⟨p, h⟩
        · exact h
      obtain ⟨p', rfl⟩ := h3
      exact ⟨fun i _ => sweepNb_col0 I J b p' i hJ, fun j _ => sweepNb_lastrow I J b p' j⟩

/-- Witness for the amended C4 at the concrete 3×3 all-zero input. -/
theorem pressure_poisson_boundary_amended_witness :
    (∀ i, i < 3 →
        pressure_poisson 3 3 zeroGrid zeroGrid 1 i 0 = pressure_poisson 3 3 zeroGrid zeroGrid 1 i 1 ∧
          pressure_poisson 3 3 zeroGrid zeroGrid 1 i (3 - 1) = 0) ∧
      (∀ j, j < 3 →
        pressure_poisson 3 3 zeroGrid zeroGrid 1 (3 - 1) j =
          pressure_poisson 3 3 zeroGrid zeroGrid 1 (3 - 2) j) ∧
      (∀ fuel q m, pressure_poisson_nb 3 3 zeroGrid zeroGrid 1 fuel = some (q, m) →
        (∀ i, i < 3 → q i 0 = q i 1) ∧ (∀ j, j < 3 → q (3 - 1) j = 0)) :=
  pressure_poisson_boundary_amended 3 3 zeroGrid zeroGrid 1 (by decide) (by decide)

/-- On the 3×3 input `b = bUnit`, `l2_target = 0`, the CFD-notebook loop
never exits from any state `Gx x` with `0 ≤ x < 4`: the newly computed
residual is `inf` (zero denominator, positive numerator) or a positive
`sqrt`, so the guard stays true, the reset counter `n = 0` keeps the
bail-out `n == 500` unreachable, and the recursion consumes all fuel. -/
theorem ppLoopNb_bUnit_none :
    ∀ fuel k d x, d.gtTol 0 = true → 0 ≤ x → x < 4 →
      ppLoopNb 3 3 bUnit 0 fuel k d (Gx x) = none := by
  intro fuel
  induction fuel with
  | zero => intro k d x _ _ _; rfl
  | succ fuel ih =>
    intro k d x hd hx0 hx4
    have hout : ∀ i j, 3 ≤ i ∨ 3 ≤ j → Gx x i j = 0 := by
      intro i j h
      simp only [Gx]
      rw [if_neg (by omega)]
    have harg : (0.25 : ℚ) * (Gx x 1 2 + Gx x 1 0 + Gx x 2 1 + Gx x 0 1) - bUnit 1 1 =
        3/4 * x + 1 := by
      simp only [Gx, bUnit]
      norm_num
      ring
    have hsweep : sweepNb 3 3 bUnit (Gx x) = Gx (3/4 * x + 1) := by
      rw [sweepNb_collapse3 bUnit (Gx x) hout, harg]
    have hd1 : (computeResidual 3 3 (Gx (3/4 * x + 1)) (Gx x)).gtTol 0 = true := by
      by_cases hx : x = 0
      · subst hx
        simp only [computeResidual, gridSum_Gx_diff, gridSum_Gx_sq]
        norm_num [Residual.gtTol]
      · have hxpos : 0 < x := lt_of_le_of_ne hx0 (Ne.symm hx)
        have hy : (0 : ℚ) < 3/4 * x + 1 - x := by linarith
        simp only [computeResidual, gridSum_Gx_diff, gridSum_Gx_sq]
        rw [if_neg (by positivity)]
        simp only [Residual.gtTol]
        rw [if_neg (by norm_num)]
        simp only [decide_eq_true_eq]
        have hnum : (0 : ℚ) < 6 * (3/4 * x + 1 - x) ^ 2 :=
          mul_pos (by norm_num) (pow_pos hy 2)
        have hden : (0 : ℚ) < 6 * x ^ 2 := mul_pos (by norm_num) (pow_pos hxpos 2)
        calc (0 : ℚ) ^ 2 = 0 := by norm_num
        _ < 6 * (3/4 * x + 1 - x) ^ 2 / (6 * x ^ 2) := div_pos hnum hden
    rw [ppLoopNb_succ, if_pos hd, if_neg (by omega), hsweep, if_pos (by norm_num)]
    exact ih (k + 1) _ (3/4 * x + 1) hd1 (by linarith) (by linarith)

/-- C1 fails on the CFD-notebook `pressure_poisson`: because `n` is reset
to `0` at the top of every sweep, the bail-out `if n == 500: break` is dead
code, and on the concrete input `p = 0`, `b = bUnit`, `l2_target = 0` the
loop never exits — for EVERY fuel bound (in particular past 501 sweeps) the
run is still iterating.  (The exercise and compile-module variant does
enforce the cap; see `pressure_poisson_iterate_count`.) -/
theorem pressure_poisson_nb_cap_dead (fuel : ℕ) :
    pressure_poisson_nb 3 3 zeroGrid bUnit 0 fuel = none := by
  unfold pressure_poisson_nb
  rw [zeroGrid_eq_Gx0]
  exact ppLoopNb_bUnit_none fuel 0 _ 0 (by norm_num [Residual.gtTol]) le_rfl (by norm_num)

/-- C3 fails on the CFD-notebook `pressure_poisson`: with `n` reset to `0`
in every iteration, the residual is recomputed on EVERY sweep, so on the
concrete input `p = pTwelve`, `b = bUnit`, `l2_target = 1/10` the loop
converges and exits after exactly `2` sweeps even though the sweep-0 check
failed — under the claimed every-10th-sweep cadence, a guard exit after `2`
sweeps is impossible (it would require a successful check at sweep `1`). -/
theorem pressure_poisson_nb_check_every_sweep :
    pressure_poisson_nb 3 3 pTwelve bUnit (1/10) 5 = some (Gx 4, 2) ∧
      (computeResidual 3 3 (sweepNb 3 3 bUnit pTwelve) pTwelve).gtTol (1/10) = true := by
  have hout12 : ∀ i j, 3 ≤ i ∨ 3 ≤ j → pTwelve i j = 0 := by
    intro i j h
    simp only [pTwelve]
    rw [if_neg (by omega)]
  have hout4 : ∀ i j, 3 ≤ i ∨ 3 ≤ j → Gx 4 i j = 0 := by
    intro i j h
    simp only [Gx]
    rw [if_neg (by omega)]
  have hsweep1 : sweepNb 3 3 bUnit pTwelve = Gx 4 := by
    have harg : (0.25 : ℚ) * (pTwelve 1 2 + pTwelve 1 0 + pTwelve 2 1 + pTwelve 0 1) -
        bUnit 1 1 = 4 := by
      simp only [pTwelve, bUnit]
      norm_num
    rw [sweepNb_collapse3 bUnit pTwelve hout12, harg]
  have hsweep2 : sweepNb 3 3 bUnit (Gx 4) = Gx 4 := by
    have harg : (0.25 : ℚ) * (Gx 4 1 2 + Gx 4 1 0 + Gx 4 2 1 + Gx 4 0 1) -
        bUnit 1 1 = 4 := by
      simp only [Gx, bUnit]
      norm_num
    rw [sweepNb_collapse3 bUnit (Gx 4) hout4, harg]
  have hnum1 : gridSum 3 3 (fun i j => (Gx 4 i j - pTwelve i j) ^ 2) = 144 := by
    simp only [gridSum, Finset.sum_range_succ, Finset.sum_range_zero, Gx, pTwelve]
    norm_num
  have hden1 : gridSum 3 3 (fun i j => pTwelve i j ^ 2) = 144 := by
    simp only [gridSum, Finset.sum_range_succ, Finset.sum_range_zero, pTwelve]
    norm_num
  have hres1 : computeResidual 3 3 (Gx 4) pTwelve = .sqrtOf 1 := by
    simp only [computeResidual, hnum1, hden1]
    norm_num
  have hres2 : computeResidual 3 3 (Gx 4) (Gx 4) = .sqrtOf 0 := by
    simp only [computeResidual, gridSum_Gx_diff, gridSum_Gx_sq]
    norm_num
  have hgate1 : (Residual.sqrtOf 1).gtTol (1/10) = true := by
    norm_num [Residual.gtTol]
  refine ⟨?_, by rw [hsweep1, hres1]; exact hgate1⟩
  unfold pressure_poisson_nb
  show ppLoopNb 3 3 bUnit (1/10) (4 + 1) 0 (.plain (1/10 + 1)) pTwelve = some (Gx 4, 2)
  rw [ppLoopNb_succ, if_pos (gtTol_plain_succ (1/10)), if_neg (by omega), hsweep1,
    if_pos (by norm_num), hres1]
  show ppLoopNb 3 3 bUnit (1/10) (3 + 1) 1 (.sqrtOf 1) (Gx 4) = some (Gx 4, 2)
  rw [ppLoopNb_succ, if_pos hgate1, if_neg (by omega), hsweep2, if_pos (by norm_num), hres2]
  show ppLoopNb 3 3 bUnit (1/10) (2 + 1) 2 (.sqrtOf 0) (Gx 4) = some (Gx 4, 2)
  rw [ppLoopNb_succ, if_neg (by norm_num [Residual.gtTol])]

/-- One-step unfolding of the `cavity_flow` timestep loop. -/
theorem cavityLoop_succ (I J : ℕ) (dt dx rho nu rtol : ℚ) (fuel nt : ℕ) (u v p b : Grid) :
    cavityLoop I J dt dx rho nu rtol fuel (nt + 1) u v p b =
      match pressure_poisson_nb I J p (velocity_term I J b rho dt u v dx) rtol fuel with
      | none => none
      | some (p1, _) =>
        cavityLoop I J dt dx rho nu rtol fuel nt
          (uBC I J (uUpdate I J u v p1 rho nu dt dx))
          (vBC I J (vUpdate I J u v p1 rho nu dt dx)) p1
          (velocity_term I J b rho dt u v dx) := rfl

/-- The zero velocity field produces a zero source term. -/
theorem velocity_term_zero :
    velocity_term 3 3 zeroGrid 1 1 zeroGrid zeroGrid 1 = zeroGrid := by
  funext i j
  simp only [velocity_term, zeroGrid]
  split_ifs <;> norm_num

/-- One CFD-notebook sweep of the all-zero 3×3 state is again all-zero. -/
theorem sweepNb_zero : sweepNb 3 3 zeroGrid zeroGrid = zeroGrid := by
  have hout : ∀ i j, 3 ≤ i ∨ 3 ≤ j → zeroGrid i j = 0 := fun _ _ _ => rfl
  rw [sweepNb_collapse3 zeroGrid zeroGrid hout]
  rw [show (0.25 : ℚ) * (zeroGrid 1 2 + zeroGrid 1 0 + zeroGrid 2 1 + zeroGrid 0 1) -
      zeroGrid 1 1 = 0 by simp [zeroGrid]]
  exact zeroGrid_eq_Gx0.symm

/-- The CFD-notebook `pressure_poisson` on the all-zero 3×3 input stops
after one sweep (the first residual is IEEE `nan` and `nan > t` is false)
and returns the zero grid. -/
theorem pressure_poisson_nb_zero :
    pressure_poisson_nb 3 3 zeroGrid zeroGrid (1/10) 2 = some (zeroGrid, 1) := by
  unfold pressure_poisson_nb
  show ppLoopNb 3 3 zeroGrid (1/10) (1 + 1) 0 (.plain (1/10 + 1)) zeroGrid = some (zeroGrid, 1)
  rw [ppLoopNb_succ, if_pos (gtTol_plain_succ (1/10)), if_neg (by omega), sweepNb_zero,
    if_pos (by norm_num), computeResidual_zero]
  show ppLoopNb 3 3 zeroGrid (1/10) (0 + 1) 1 .nan zeroGrid = some (zeroGrid, 1)
  rw [ppLoopNb_succ, if_neg (by simp [Residual.gtTol])]

/-- One timestep of `cavity_flow` from the all-zero 3×3 state terminates
and yields the boundary-forced velocity fields `uZstep`, `vZstep` and the
zero pressure. -/
theorem cavity_zero_run :
    cavityLoop 3 3 1 1 1 0 (1/10) 2 1 zeroGrid zeroGrid zeroGrid zeroGrid =
      some (uZstep, vZstep, zeroGrid) := by
  show cavityLoop 3 3 1 1 1 0 (1/10) 2 (0 + 1) zeroGrid zeroGrid zeroGrid zeroGrid = _
  rw [cavityLoop_succ, velocity_term_zero, pressure_poisson_nb_zero]
  rfl

/-- Every triple returned by the timestep loop after at least one step has
its velocity grids of the boundary-forced shape `uBC …`, `vBC …`. -/
theorem cavityLoop_bc_shape (I J : ℕ) (dt dx rho nu rtol : ℚ) (fuel : ℕ) :
    ∀ nt u v p b u1 v1 p1,
      cavityLoop I J dt dx rho nu rtol fuel (nt + 1) u v p b = some (u1, v1, p1) →
      ∃ gu gv, u1 = uBC I J gu ∧ v1 = vBC I J gv := by
  intro nt
  induction nt with
  | zero =>
    intro u v p b u1 v1 p1 h
    rw [cavityLoop_succ] at h
    rcases heq : pressure_poisson_nb I J p (velocity_term I J b rho dt u v dx) rtol fuel with
      _ | ⟨pp, m⟩
    · rw [heq] at h
      cases h
    · rw [heq] at h
      simp only [cavityLoop, Option.some.injEq, Prod.mk.injEq] at h
      exact ⟨uUpdate I J u v pp rho nu dt dx, vUpdate I J u v pp rho nu dt dx,
        h.1.symm, h.2.1.symm⟩
  | succ nt ih =>
    intro u v p b u1 v1 p1 h
    rw [cavityLoop_succ] at h
    rcases heq : pressure_poisson_nb I J p (velocity_term I J b rho dt u v dx) rtol fuel with
      _ | ⟨pp, m⟩
    · rw [heq] at h
      cases h
    · rw [heq] at h
      exact ih _ _ _ _ _ _ _ h

/-- Counterexample to C6 as stated: at the concrete interior input
`un = 0`, `vn = vSpike`, `p = pTop`, `rho = dt = dx = 1`, `nu = 0`, the
`v`-momentum update of `cavity_flow` produces `-3/2`, while the update the
claim describes — previous `u` as the advecting velocity of BOTH derivative
terms — would produce `5/2`: the y-derivative term is in fact multiplied by
the previous `v` field. -/
theorem v_update_not_both_u :
    vUpdate 3 3 zeroGrid vSpike pTop 1 0 1 1 1 1 = -(3/2) ∧
      vUpdateSpecBothU 3 3 zeroGrid vSpike pTop 1 0 1 1 1 1 = 5/2 ∧
      (-(3/2) : ℚ) ≠ 5/2 := by
  refine ⟨?_, ?_, by norm_num⟩ <;>
    · simp only [vUpdate, vUpdateSpecBothU, vSpike, zeroGrid, pTop]
      norm_num

/-- C6 (amended): in the per-timestep velocity update of `cavity_flow`
(one step that returns), every interior cell of the new `v` equals the
update whose x-derivative advection term is multiplied by the previous `u`
field and whose y-derivative advection term is multiplied by the previous
`v` field — mirroring the `u`-update convention, not reusing `u` for
both. -/
theorem cavity_v_advection (I J : ℕ) (dt dx rho nu rtol : ℚ) (fuel : ℕ)
    (u v p b u1 v1 p1 : Grid)
    (h : cavityLoop I J dt dx rho nu rtol fuel 1 u v p b = some (u1, v1, p1))
    (i j : ℕ) (hi1 : 1 ≤ i) (hi2 : i ≤ I - 2) (hj1 : 1 ≤ j) (hj2 : j ≤ J - 2) :
    v1 i j =
      v i j - dt / dx *
          (u i j * (v i j - v i (j - 1)) + v i j * (v i j - v (i - 1) j) +
            1 / (2 * rho) * (p1 (i + 1) j - p1 (i - 1) j)) +
        nu * dt / dx ^ 2 *
          (v i (j + 1) + v i (j - 1) + v (i + 1) j + v (i - 1) j - 4 * v i j) := by
  rw [show (1 : ℕ) = 0 + 1 from rfl, cavityLoop_succ] at h
  rcases heq : pressure_poisson_nb I J p (velocity_term I J b rho dt u v dx) rtol fuel with
    _ | ⟨pp, m⟩
  · rw [heq] at h
    cases h
  · rw [heq] at h
    simp only [cavityLoop, Option.some.injEq, Prod.mk.injEq] at h
    obtain ⟨h1, h2, h3⟩ := h
    rw [← h2, ← h3]
    simp only [vBC]
    rw [if_neg (by omega), if_neg (by omega)]
    simp only [vUpdate]
    rw [if_pos ⟨hi1, hi2, hj1, hj2⟩]

/-- Witness for the amended C6 at the one-step all-zero 3×3 run, interior
cell `(1, 1)`. -/
theorem cavity_v_advection_witness :
    vZstep 1 1 =
      zeroGrid 1 1 - 1 / 1 *
          (zeroGrid 1 1 * (zeroGrid 1 1 - zeroGrid 1 (1 - 1)) +
            zeroGrid 1 1 * (zeroGrid 1 1 - zeroGrid (1 - 1) 1) +
            1 / (2 * 1) * (zeroGrid (1 + 1) 1 - zeroGrid (1 - 1) 1)) +
        0 * 1 / 1 ^ 2 *
          (zeroGrid 1 (1 + 1) + zeroGrid 1 (1 - 1) + zeroGrid (1 + 1) 1 +
            zeroGrid (1 - 1) 1 - 4 * zeroGrid 1 1) :=
  cavity_v_advection 3 3 1 1 1 0 (1/10) 2 zeroGrid zeroGrid zeroGrid zeroGrid
    uZstep vZstep zeroGrid cavity_zero_run 1 1 (by decide) (by decide) (by decide) (by decide)

/-- Counterexample to C7 as stated: after one timestep of `cavity_flow`
from the all-zero 3×3 state, the left-column cell `(2, 0)` of `u` — which
is also a lid-row corner — holds `1`, not `0`: the lid assignment
`u[-1, :] = 1` runs after the column assignments and overwrites the
corners. -/
theorem cavity_lid_corner_one :
    cavityLoop 3 3 1 1 1 0 (1/10) 2 1 zeroGrid zeroGrid zeroGrid zeroGrid =
        some (uZstep, vZstep, zeroGrid) ∧
      uZstep 2 0 = 1 ∧ (1 : ℚ) ≠ 0 := by
  refine ⟨cavity_zero_run, ?_, by norm_num⟩
  simp [uZstep, uBC]

/-- C7 (amended): after every completed timestep of `cavity_flow`, the
velocity boundary values are forced exactly: on the lid row `u = 1` and
`v = 0` at every point, on row `0` both are `0`, `v` is `0` on the left
and right columns everywhere, and `u` is `0` on the left and right columns
at every row except the lid row, whose corners are overwritten to `1` by
the final lid assignment. -/
theorem cavity_velocity_bc_amended (I J : ℕ) (dt dx rho nu rtol : ℚ) (fuel nt : ℕ)
    (u v p b u1 v1 p1 : Grid) (hI : 2 ≤ I)
    (h : cavityLoop I J dt dx rho nu rtol fuel (nt + 1) u v p b = some (u1, v1, p1)) :
    (∀ j, j < J → u1 (I - 1) j = 1 ∧ v1 (I - 1) j = 0 ∧ u1 0 j = 0 ∧ v1 0 j = 0) ∧
      (∀ i, i < I - 1 → u1 i 0 = 0 ∧ u1 i (J - 1) = 0) ∧
      (∀ i, i < I → v1 i 0 = 0 ∧ v1 i (J - 1) = 0) := by
  obtain ⟨gu, gv, rfl, rfl⟩ := cavityLoop_bc_shape I J dt dx rho nu rtol fuel nt u v p b _ _ _ h
  refine ⟨fun j _ => ⟨?_, ?_, ?_, ?_⟩, fun i hi => ⟨?_, ?_⟩, fun i _ => ⟨?_, ?_⟩⟩ <;>
    · simp only [uBC, vBC]
      split_ifs <;> first | rfl | (exfalso; omega) | (exfalso; tauto)

/-- Witness for the amended C7 at the one-step all-zero 3×3 run. -/
theorem cavity_velocity_bc_amended_witness :
    (∀ j, j < 3 → uZstep (3 - 1) j = 1 ∧ vZstep (3 - 1) j = 0 ∧ uZstep 0 j = 0 ∧
        vZstep 0 j = 0) ∧
      (∀ i, i < 3 - 1 → uZstep i 0 = 0 ∧ uZstep i (3 - 1) = 0) ∧
      (∀ i, i < 3 → vZstep i 0 = 0 ∧ vZstep i (3 - 1) = 0) :=
  cavity_velocity_bc_amended 3 3 1 1 1 0 (1/10) 2 0 zeroGrid zeroGrid zeroGrid zeroGrid
    uZstep vZstep zeroGrid (by decide) cavity_zero_run

/-- Cadence invariant of the exercise loop: entering an iteration with
counter `n`, current grid `(sweepEx)^[n] p0` and a residual `d` that was
last refreshed at the latest check, the run either exhausts the cap or
exits exactly one sweep after a failed check at a sweep index that is a
multiple of `10`, every earlier check having succeeded. -/
theorem ppLoopEx_cadence (I J : ℕ) (b : Grid) (t : ℚ) (p0 : Grid) :
    ∀ fuel n d,
      (∀ m, m % 10 = 0 → m + 1 < n → (residAt I J b p0 m).gtTol t = true) →
      (n = 0 → d.gtTol t = true) →
      (1 ≤ n → (n - 1) % 10 = 0 → d = residAt I J b p0 (n - 1)) →
      (1 ≤ n → ¬(n - 1) % 10 = 0 → d.gtTol t = true) →
      ((ppLoopEx I J b t fuel n d ((sweepEx I J b)^[n] p0)).2 = n + fuel ∨
          (1 ≤ (ppLoopEx I J b t fuel n d ((sweepEx I J b)^[n] p0)).2 ∧
            ((ppLoopEx I J b t fuel n d ((sweepEx I J b)^[n] p0)).2 - 1) % 10 = 0 ∧
            (residAt I J b p0
              ((ppLoopEx I J b t fuel n d ((sweepEx I J b)^[n] p0)).2 - 1)).gtTol t = false)) ∧
        ∀ m, m % 10 = 0 → m + 1 < (ppLoopEx I J b t fuel n d ((sweepEx I J b)^[n] p0)).2 →
          (residAt I J b p0 m).gtTol t = true := by
  intro fuel
  induction fuel with
  | zero =>
    intro n d inv1 _ _ _
    exact ⟨Or.inl rfl, fun m hm hlt => inv1 m hm hlt⟩
  | succ fuel ih =>
    intro n d inv1 inv2 inv3 inv4
    by_cases hg : d.gtTol t = true
    · rw [ppLoopEx_succ, if_pos hg]
      have hnext : computeResidual I J (sweepEx I J b ((sweepEx I J b)^[n] p0))
          ((sweepEx I J b)^[n] p0) = residAt I J b p0 n := by
        rw [residAt, Function.iterate_succ_apply']
      have step := ih (n + 1) (if n % 10 = 0 then
          computeResidual I J (sweepEx I J b ((sweepEx I J b)^[n] p0))
            ((sweepEx I J b)^[n] p0) else d)
        (by
          intro m hm hlt
          rcases Nat.lt_or_ge (m + 1) n with h | h
          · exact inv1 m hm h
          · have hmn : m = n - 1 := by omega
            have hmod : (n - 1) % 10 = 0 := by
              rw [← hmn]
              exact hm
            have hn1 : 1 ≤ n := by omega
            rw [hmn, ← inv3 hn1 hmod]
            exact hg)
        (by omega)
        (by
          intro _ hmod
          rw [if_pos (by omega : n % 10 = 0), hnext]
          exact congrArg _ (by omega))
        (by
          intro _ hmod
          rw [if_neg (by omega : ¬n % 10 = 0)]
          exact hg)
      have hiter : sweepEx I J b ((sweepEx I J b)^[n] p0) = (sweepEx I J b)^[n + 1] p0 :=
        (Function.iterate_succ_apply' _ _ _).symm
      rw [hiter] at step ⊢
      refine ⟨?_, step.2⟩
      rcases step.1 with h | h
      · exact Or.inl (by omega)
      · exact Or.inr h
    · rw [ppLoopEx_succ, if_neg hg]
      have hn1 : 1 ≤ n := by
        by_contra hc
        exact hg (inv2 (by omega))
      have hmod : (n - 1) % 10 = 0 := by
        by_contra hc
        exact hg (inv4 hn1 hc)
      refine ⟨Or.inr ⟨hn1, hmod, ?_⟩, fun m hm hlt => inv1 m hm hlt⟩
      rw [← inv3 hn1 hmod]
      exact Bool.not_eq_true _ ▸ (Bool.eq_false_iff.mpr hg)

/-- The exercise `pressure_poisson` computes its residual only at sweep
counts that are multiples of `10` and stops as soon as one such computed
residual falls at or below `l2_target`: a run either hits the `501`-sweep
cap or ends exactly one sweep after the first failed check, all earlier
checks having been above the tolerance. -/
theorem pressure_poisson_cadence (I J : ℕ) (p b : Grid) (t : ℚ) :
    (pressureSweeps I J p b t = 501 ∨
        (1 ≤ pressureSweeps I J p b t ∧ (pressureSweeps I J p b t - 1) % 10 = 0 ∧
          (residAt I J b p (pressureSweeps I J p b t - 1)).gtTol t = false)) ∧
      ∀ m, m % 10 = 0 → m + 1 < pressureSweeps I J p b t →
        (residAt I J b p m).gtTol t = true := by
  have h := ppLoopEx_cadence I J b t p 501 0 (.plain (t + 1))
    (fun m _ hlt => absurd hlt (by omega))
    (fun _ => gtTol_plain_succ t)
    (fun h1 _ => absurd h1 (by omega))
    (fun h1 _ => absurd h1 (by omega))
  rw [Function.iterate_zero_apply] at h
  exact h
